import Mathlib

/-!
Verification of the blog_updater action-registry subsystem.

The data model and dispatch protocol of the action registry
(agent/registry.py, agent/models.py) are modelled from the spec, since
only their tests and callers are present in the sources; the concrete
blog action handlers (agent/actions/blog_actions.py) are embedded
directly from the source.
-/

/-- Dynamic (Python-style) runtime value: strings, integers, booleans,
the None value, lists, and string-keyed dictionaries. -/
inductive Value where
  | str (s : String)
  | num (n : Int)
  | bool (b : Bool)
  | none
  | list (xs : List Value)
  | dict (xs : List (String × Value))
deriving Repr

/-- A parameter bag / mapping from string keys to values. -/
abbrev Dict := List (String × Value)

/-- First-match lookup in a dictionary, as Python dict indexing (keys are
unique in a real dict; first match is the faithful reading). -/
def dictGet : Dict → String → Option Value
  | [], _ => Option.none
  | (k, v) :: rest, key => if k = key then some v else dictGet rest key

/-- Python dict.get with a default: the default is used only when the key
is absent, an explicit None entry is returned as None. -/
def pyGet (d : Dict) (key : String) (default : Value) : Value :=
  (dictGet d key).getD default

/-- Python truthiness test, negated: falsy values are None, empty string,
zero, False, empty list, empty dict. -/
def Value.falsy : Value → Bool
  | .none => true
  | .str s => s.isEmpty
  | .num n => n == 0
  | .bool b => !b
  | .list xs => xs.isEmpty
  | .dict xs => xs.isEmpty

/-- Python or operator on values: left operand when truthy, else right. -/
def pyOr (a b : Value) : Value := if a.falsy then b else a

/-- Modelled from the spec: input/output parameter declaration of an
action descriptor, a (name, kind) pair (the Io record of agent/models.py,
which is absent from the sources). -/
structure IoParam where
  name : String
  kind : String
deriving Repr, DecidableEq

/-- Modelled from the spec: a named, typed, described property of a type
descriptor (the PropertyDef record of agent/models.py). -/
structure PropertyDef where
  name : String
  kind : String
  description : String
deriving Repr, DecidableEq

/-- Modelled from the spec: a type descriptor, a named record type with an
ordered sequence of properties (the DynamicType record of
agent/models.py). -/
structure DynamicType where
  name : String
  description : String
  own_properties : List PropertyDef
deriving Repr, DecidableEq

/-- Modelled from the spec: action descriptor metadata — name,
description, typed inputs/outputs, precondition/postcondition tags,
cost and value scores, and the re-run safety flag (the ActionMetadata
record of agent/models.py). -/
structure ActionMetadata where
  name : String
  description : String
  inputs : List IoParam
  outputs : List IoParam
  pre : List String
  post : List String
  cost : Rat
  value : Rat
  can_rerun : Bool
deriving Repr, DecidableEq

/-- A handler: a function from a parameter bag to either a result mapping
(normal return) or a raised error with a human-readable message. -/
def Handler := Dict → Except String Dict

/-- Modelled from the spec: an action descriptor paired with its invocable
handler, exclusively owned by the registry. -/
structure RegisteredAction where
  metadata : ActionMetadata
  handler : Handler

/-- Modelled from the spec: the registry state — a mapping from action
name to registered action and a mapping from type name to type
descriptor, both kept in insertion order (agent/registry.py is absent
from the sources). -/
structure ActionRegistry where
  actions : List (String × RegisteredAction)
  types : List (String × DynamicType)

/-- A fresh empty registry. -/
def ActionRegistry.empty : ActionRegistry := ⟨[], []⟩

/-- Modelled from the spec: lookup of a registered action by exact,
case-sensitive name match. -/
def get_action (r : ActionRegistry) (name : String) : Option RegisteredAction :=
  (r.actions.find? (fun p => p.1 = name)).map Prod.snd

/-- Modelled from the spec: register_type adds a type descriptor and
fails with a duplicate-registration error when the name already exists
(the failing policy stated for DuplicateRegistration in the spec error
taxonomy). -/
def register_type (r : ActionRegistry) (t : DynamicType) : Except String ActionRegistry :=
  if (r.types.find? (fun p => p.1 = t.name)).isSome then
    .error ("duplicate type " ++ t.name)
  else
    .ok ⟨r.actions, r.types ++ [(t.name, t)]⟩

/-- Modelled from the spec: register_action validates that the name is
non-empty and not already registered, stores the descriptor/handler
pair, and otherwise fails with a duplicate-registration error. -/
def register_action (r : ActionRegistry) (m : ActionMetadata) (h : Handler) :
    Except String ActionRegistry :=
  if m.name = "" then .error "action name must be non-empty"
  else if (r.actions.find? (fun p => p.1 = m.name)).isSome then
    .error ("duplicate action " ++ m.name)
  else
    .ok ⟨r.actions ++ [(m.name, ⟨m, h⟩)], r.types⟩

/-- Modelled from the spec: list_actions returns the registered
descriptors, in registration order, without the handlers. -/
def list_actions (r : ActionRegistry) : List ActionMetadata :=
  r.actions.map (fun p => p.2.metadata)

/-- Modelled from the spec: list_types returns the registered type
descriptors in registration order. -/
def list_types (r : ActionRegistry) : List DynamicType :=
  r.types.map (fun p => p.2)

/-- Execution response envelope: status is success or error; result is
present exactly on success, error exactly on failure. -/
structure ExecutionResponse where
  status : String
  result : Option Dict
  error : Option String

/-- The not-found error message: it carries the literal substring
"not found", the caller-visible contract of the spec. -/
def notFoundMsg (name : String) : String :=
  "Action " ++ name ++ " not found"

/-- Modelled from the spec: the dispatch state machine of execute —
resolve the name (not found gives an error envelope whose message
contains "not found"), invoke the handler with the parameters exactly as
given, wrap a returned mapping as a success envelope and a raised error
as an error envelope carrying the message; no fault propagates. -/
def execute (r : ActionRegistry) (name : String) (params : Dict) : ExecutionResponse :=
  match get_action r name with
  | Option.none => ⟨"error", Option.none, some (notFoundMsg name)⟩
  | some ra =>
    match ra.handler params with
    | .ok d => ⟨"success", some d, Option.none⟩
    | .error e => ⟨"error", Option.none, some e⟩

/-- Well-formedness of an execution envelope: either a success carrying a
result and no error, or an error carrying a message and no result. -/
def WellFormedResponse (resp : ExecutionResponse) : Prop :=
  (resp.status = "success" ∧ resp.result.isSome ∧ resp.error = Option.none) ∨
  (resp.status = "error" ∧ resp.result = Option.none ∧ resp.error.isSome)

/-- Substring containment: hay contains needle as a literal substring. -/
def containsSubstr (needle hay : String) : Prop :=
  ∃ p s, hay = p ++ needle ++ s

/-- Modelled from the spec: the process-wide default registry instance
lives behind an accessor; the process global state is the optional
current instance. get_registry creates the instance on first use and
afterwards returns the same instance. -/
def get_registry : Option ActionRegistry → ActionRegistry × Option ActionRegistry
  | Option.none => (ActionRegistry.empty, some ActionRegistry.empty)
  | some r => (r, some r)

/-- Modelled from the spec: reset_registry clears both catalog mappings
of the process-wide instance, for test isolation. -/
def reset_registry : Option ActionRegistry → Option ActionRegistry :=
  fun _ => some ActionRegistry.empty

/-- Registration of a whole catalog: fold register_action over a sequence
of descriptor/handler pairs, failing as soon as one registration fails
(registration faults stop start-up per the spec). -/
def registerAll (r : ActionRegistry) : List (ActionMetadata × Handler) → Except String ActionRegistry
  | [] => .ok r
  | (m, h) :: rest =>
    match register_action r m h with
    | .error e => .error e
    | .ok r' => registerAll r' rest

/-! Embedding of agent/actions/blog_actions.py (present in the sources).
External Blogger/Drive interactions are modelled by an oracle environment
and every attempted external call is recorded in a trace. -/

/-- One attempted external Blogger/Drive call, as recorded in a trace. -/
inductive ExtCall where
  | getService
  | postsInsert (blogId : Value) (body : Dict) (isDraft : Value)
  | postsUpdate (blogId postId : Value) (body : Dict)
  | postsGetCall (blogId postId : Value)
  | postsPublish (blogId postId : Value)
  | postsList (blogId maxResults : Value) (allStatuses : Bool)
  | driveUpload (path : String)

/-- Oracle for the external collaborators: the Blogger service (whose
acquisition itself may fail, as in the get blogger service helper), the
Blogger posts endpoints, the Drive upload helper and the file system
existence check used by blog_upload_image. -/
structure BloggerEnv where
  getService : Except String Unit
  postsInsert : Value → Dict → Value → Except String Dict
  postsUpdate : Value → Value → Dict → Except String Dict
  postsGetAdmin : Value → Value → Except String Dict
  postsPublish : Value → Value → Except String Dict
  postsList : Value → Value → Bool → Except String Dict
  driveAvailable : Bool
  driveUpload : String → Except String Value
  fileExists : String → Bool

/-- HTML escaping helper of blog_actions.py: replaces ampersand, angle
brackets and double quote by entities. -/
def escapeHtml (s : String) : String :=
  (((s.replace "&" "&amp;").replace "<" "&lt;").replace ">" "&gt;").replace "\"" "&quot;"

/-- Python str.strip on a value: trims a string, raises an attribute
error on any other value. -/
def pyStrip : Value → Except String String
  | .str s => .ok s.trim
  | _ => .error "AttributeError: strip"

/-- One figure fragment for an image entry, per the loop body of the
build content helper: a non-dict entry raises an attribute error; an
entry whose stripped url is empty is skipped; a caption adds a
figcaption. -/
def figureFor (img : Value) : Except String (Option String) :=
  match img with
  | .dict d => do
    let url ← pyStrip (pyOr (pyGet d "url" .none) (.str ""))
    if url = "" then
      return Option.none
    else
      let caption ← pyStrip (pyOr (pyGet d "caption" .none) (.str ""))
      if caption = "" then
        return some ("<figure><img src=\"" ++ url ++ "\" alt=\"\"/></figure>")
      else
        return some ("<figure><img src=\"" ++ url ++ "\" alt=\"" ++ escapeHtml caption
          ++ "\"/><figcaption>" ++ escapeHtml caption ++ "</figcaption></figure>")
  | _ => .error "AttributeError: get"

/-- The build content with images helper of blog_actions.py: appends
image figures to the post body; non-string bodies and malformed image
lists raise. -/
def buildContentWithImages (body_html images : Value) : Except String Value := do
  if images.falsy then
    let base ← pyStrip (pyOr body_html (.str ""))
    return .str base
  else
    match images with
    | .list xs => do
      let base ← pyStrip (pyOr body_html (.str ""))
      let parts ← xs.foldlM (fun (acc : List String) img => do
        match ← figureFor img with
        | Option.none => return acc
        | some fig => return acc ++ [fig]) [base]
      return .str (String.intercalate "\n\n" parts)
    | _ => .error "TypeError: not iterable"

/-- Request extraction of blog_create_post and blog_update_post: the
params entry named request when present (a non-mapping value there makes
the later attribute access raise), the params mapping itself otherwise. -/
def effectiveRequest (params : Dict) : Except String Dict :=
  match dictGet params "request" with
  | some (.dict d) => .ok d
  | some _ => .error "AttributeError: get"
  | Option.none => .ok params

/-- The result of a blog handler: the returned mapping or raised error,
together with the trace of attempted external calls. -/
abbrev HandlerRun := Except String Dict × List ExtCall

/-- Content preparation step of blog_create_post: the content parameter
(empty-string default), run through the build content helper exactly
when the images parameter is truthy. -/
def createContent (request : Dict) : Except String Value :=
  let content0 := pyGet request "content" (.str "")
  let images := pyGet request "images" (.list [])
  if images.falsy then .ok content0 else buildContentWithImages content0 images

/-- Handler blog_create_post of blog_actions.py: validates blog_id and
title on the effective request, builds the content, inserts the post
with isDraft equal to the draft flag (default True), and reports status
draft exactly when the flag is truthy. -/
def blog_create_post (env : BloggerEnv) (params : Dict) : HandlerRun :=
  match effectiveRequest params with
  | .error e => (.error e, [])
  | .ok request =>
    let blog_id := pyGet request "blog_id" .none
    let title := pyGet request "title" .none
    let labels := pyGet request "labels" (.list [])
    let draft := pyGet request "draft" (.bool true)
    if blog_id.falsy then (.error "blog_id is required", [])
    else if title.falsy then (.error "title is required", [])
    else
      match createContent request with
      | .error e => (.error e, [])
      | .ok content =>
        match env.getService with
        | .error e => (.error e, [.getService])
        | .ok _ =>
          let post_body : Dict :=
            ("title", title) :: ("content", content) ::
              (if labels.falsy then [] else [("labels", labels)])
          match env.postsInsert blog_id post_body draft with
          | .error e => (.error e, [.getService, .postsInsert blog_id post_body draft])
          | .ok result =>
            match dictGet result "id" with
            | Option.none =>
              (.error "KeyError: id", [.getService, .postsInsert blog_id post_body draft])
            | some idv =>
              (.ok [("id", idv),
                    ("url", pyGet result "url" .none),
                    ("status", .str (if draft.falsy then "live" else "draft")),
                    ("title", pyGet result "title" title)],
               [.getService, .postsInsert blog_id post_body draft])

/-- Handler blog_update_post of blog_actions.py: validates blog_id and
post_id on the effective request, fetches the existing post, merges the
given fields over it and updates. -/
def blog_update_post (env : BloggerEnv) (params : Dict) : HandlerRun :=
  match effectiveRequest params with
  | .error e => (.error e, [])
  | .ok request =>
    let blog_id := pyGet request "blog_id" .none
    let post_id := pyGet request "post_id" .none
    let title := pyGet request "title" .none
    let content := pyGet request "content" .none
    let labels := pyGet request "labels" .none
    let images := pyGet request "images" .none
    if blog_id.falsy then (.error "blog_id is required", [])
    else if post_id.falsy then (.error "post_id is required", [])
    else
      match env.getService with
      | .error e => (.error e, [.getService])
      | .ok _ =>
        match env.postsGetAdmin blog_id post_id with
        | .error e => (.error e, [.getService, .postsGetCall blog_id post_id])
        | .ok existing =>
          let update_title := match title with
            | .none => pyGet existing "title" .none
            | t => t
          let update_content0 := match content with
            | .none => pyGet existing "content" (.str "")
            | c => c
          match (if images.falsy then .ok update_content0
                 else buildContentWithImages update_content0 images : Except String Value) with
          | .error e => (.error e, [.getService, .postsGetCall blog_id post_id])
          | .ok update_content =>
            let update_labels := match labels with
              | .none => pyOr (pyGet existing "labels" .none) (.list [])
              | l => l
            let post_body : Dict :=
              [("title", update_title), ("content", update_content), ("labels", update_labels)]
            match env.postsUpdate blog_id post_id post_body with
            | .error e =>
              (.error e,
               [.getService, .postsGetCall blog_id post_id, .postsUpdate blog_id post_id post_body])
            | .ok result =>
              match dictGet result "id" with
              | Option.none =>
                (.error "KeyError: id",
                 [.getService, .postsGetCall blog_id post_id, .postsUpdate blog_id post_id post_body])
              | some idv =>
                (.ok [("id", idv),
                      ("url", pyGet result "url" .none),
                      ("status", pyGet result "status" (.str "draft")),
                      ("title", pyGet result "title" update_title)],
                 [.getService, .postsGetCall blog_id post_id, .postsUpdate blog_id post_id post_body])

/-- Handler blog_publish_post of blog_actions.py: validates blog_id and
post_id on the params, publishes the post and reports status live. -/
def blog_publish_post (env : BloggerEnv) (params : Dict) : HandlerRun :=
  let blog_id := pyGet params "blog_id" .none
  let post_id := pyGet params "post_id" .none
  if blog_id.falsy then (.error "blog_id is required", [])
  else if post_id.falsy then (.error "post_id is required", [])
  else
    match env.getService with
    | .error e => (.error e, [.getService])
    | .ok _ =>
      match env.postsPublish blog_id post_id with
      | .error e => (.error e, [.getService, .postsPublish blog_id post_id])
      | .ok result =>
        match dictGet result "id" with
        | Option.none => (.error "KeyError: id", [.getService, .postsPublish blog_id post_id])
        | some idv =>
          (.ok [("id", idv),
                ("url", pyGet result "url" .none),
                ("status", .str "live"),
                ("title", pyGet result "title" .none),
                ("published", pyGet result "published" .none)],
           [.getService, .postsPublish blog_id post_id])

/-- Handler blog_get_post of blog_actions.py: validates blog_id and
post_id on the params and fetches the post. -/
def blog_get_post (env : BloggerEnv) (params : Dict) : HandlerRun :=
  let blog_id := pyGet params "blog_id" .none
  let post_id := pyGet params "post_id" .none
  if blog_id.falsy then (.error "blog_id is required", [])
  else if post_id.falsy then (.error "post_id is required", [])
  else
    match env.getService with
    | .error e => (.error e, [.getService])
    | .ok _ =>
      match env.postsGetAdmin blog_id post_id with
      | .error e => (.error e, [.getService, .postsGetCall blog_id post_id])
      | .ok result =>
        match dictGet result "id" with
        | Option.none => (.error "KeyError: id", [.getService, .postsGetCall blog_id post_id])
        | some idv =>
          (.ok [("id", idv),
                ("title", pyGet result "title" .none),
                ("content", pyGet result "content" (.str "")),
                ("labels", pyOr (pyGet result "labels" .none) (.list [])),
                ("status", pyGet result "status" (.str "unknown")),
                ("url", pyGet result "url" .none),
                ("published", pyGet result "published" .none),
                ("updated", pyGet result "updated" .none)],
           [.getService, .postsGetCall blog_id post_id])

/-- Handler blog_upload_image of blog_actions.py: validates file_path on
the params, checks the file exists, and uploads to Drive; a missing
drive_upload module becomes a value error. -/
def blog_upload_image (env : BloggerEnv) (params : Dict) : HandlerRun :=
  let file_path := pyGet params "file_path" .none
  if file_path.falsy then (.error "file_path is required", [])
  else
    match file_path with
    | .str s =>
      if env.fileExists s then
        if env.driveAvailable then
          match env.driveUpload s with
          | .error e => (.error e, [.driveUpload s])
          | .ok url => (.ok [("url", url)], [.driveUpload s])
        else (.error "Drive upload not available", [])
      else (.error ("File not found: " ++ s), [])
    | _ => (.error "TypeError: not a path", [])

/-- One listed post entry of blog_list_posts: a non-dict entry raises, a
missing id raises a key error. -/
def listedPost (p : Value) : Except String Value :=
  match p with
  | .dict d =>
    match dictGet d "id" with
    | Option.none => .error "KeyError: id"
    | some idv =>
      .ok (.dict [("id", idv),
                  ("title", pyGet d "title" .none),
                  ("status", pyGet d "status" (.str "unknown")),
                  ("url", pyGet d "url" .none),
                  ("published", pyGet d "published" .none),
                  ("updated", pyGet d "updated" .none)])
  | _ => .error "TypeError: not a mapping"

/-- Handler blog_list_posts of blog_actions.py: validates blog_id on the
params and lists posts, passing all statuses when fetch_drafts is
truthy. -/
def blog_list_posts (env : BloggerEnv) (params : Dict) : HandlerRun :=
  let blog_id := pyGet params "blog_id" .none
  let max_results := pyGet params "max_results" (.num 10)
  let fetch_drafts := pyGet params "fetch_drafts" (.bool false)
  if blog_id.falsy then (.error "blog_id is required", [])
  else
    match env.getService with
    | .error e => (.error e, [.getService])
    | .ok _ =>
      let allSt := !fetch_drafts.falsy
      match env.postsList blog_id max_results allSt with
      | .error e => (.error e, [.getService, .postsList blog_id max_results allSt])
      | .ok result =>
        match pyOr (pyGet result "items" .none) (.list []) with
        | .list items =>
          match items.mapM listedPost with
          | .error e => (.error e, [.getService, .postsList blog_id max_results allSt])
          | .ok posts =>
            (.ok [("posts", .list posts)], [.getService, .postsList blog_id max_results allSt])
        | _ => (.error "TypeError: not iterable", [.getService, .postsList blog_id max_results allSt])

/-! Test fixtures from tests/test_registry.py and the concurrency model. -/

/-- The echo handler of the execution test: returns a mapping sending
echo to the message parameter (empty-string default). -/
def echoHandler : Handler :=
  fun params => .ok [("echo", pyGet params "message" (.str ""))]

/-- Modelled from the spec: descriptor of the echo action of the tests;
the decorator call gives only name and description, the remaining fields
take the model defaults (echo is re-run-safe). -/
def echoMeta : ActionMetadata :=
  ⟨"echo", "Echo the input", [], [], [], [], 0, 0, true⟩

/-- A registry holding exactly the registered echo action. -/
def echoReg : ActionRegistry := ⟨[("echo", ⟨echoMeta, echoHandler⟩)], []⟩

/-- Modelled from the spec: one atomic dispatch step over the shared
registry state — execute reads the catalog and writes nothing, so the
step returns the registry unchanged. -/
def executeStep (r : ActionRegistry) (q : String × Dict) : ExecutionResponse × ActionRegistry :=
  (execute r q.1 q.2, r)

/-- Modelled from the spec: an interleaved run of a batch of requests
over the shared registry state; the schedule picks request indices in an
arbitrary order and each pick performs one dispatch step against the
current shared state, recording the response under its index. -/
def runSchedule (reqs : List (String × Dict)) : ActionRegistry → List Nat →
    List (Nat × ExecutionResponse) × ActionRegistry
  | r, [] => ([], r)
  | r, i :: rest =>
    match reqs[i]? with
    | Option.none => runSchedule reqs r rest
    | some q =>
      let pr := executeStep r q
      let rest' := runSchedule reqs pr.2 rest
      ((i, pr.1) :: rest'.1, rest'.2)

/-- The batch of echo requests with distinct messages used by the
concurrency property. -/
def echoReqs (msgs : List String) : List (String × Dict) :=
  msgs.map (fun m => ("echo", [("message", Value.str m)]))

/-! Helper lemmas shared by the claim theorems. -/

theorem execute_of_get_action_none {r : ActionRegistry} {name : String} (params : Dict)
    (h : get_action r name = Option.none) :
    execute r name params = ⟨"error", Option.none, some (notFoundMsg name)⟩ := by
  simp [execute, h]

theorem execute_of_handler_ok {r : ActionRegistry} {name : String} {params : Dict}
    {ra : RegisteredAction} {d : Dict}
    (h : get_action r name = some ra) (hh : ra.handler params = .ok d) :
    execute r name params = ⟨"success", some d, Option.none⟩ := by
  simp [execute, h, hh]

theorem execute_of_handler_error {r : ActionRegistry} {name : String} {params : Dict}
    {ra : RegisteredAction} {e : String}
    (h : get_action r name = some ra) (hh : ra.handler params = .error e) :
    execute r name params = ⟨"error", Option.none, some e⟩ := by
  simp [execute, h, hh]

theorem notFoundMsg_contains (name : String) :
    containsSubstr "not found" (notFoundMsg name) := by
  refine ⟨"Action " ++ name ++ " ", "", ?_⟩
  simp [notFoundMsg, String.append_assoc]

theorem execute_echo (m : String) :
    execute echoReg "echo" [("message", Value.str m)] =
      ⟨"success", some [("echo", Value.str m)], Option.none⟩ := rfl

theorem register_action_ok {r : ActionRegistry} {m : ActionMetadata} {h : Handler}
    {r' : ActionRegistry} (hr : register_action r m h = .ok r') :
    m.name ≠ "" ∧ r.actions.find? (fun p => p.1 = m.name) = Option.none ∧
      r' = ⟨r.actions ++ [(m.name, ⟨m, h⟩)], r.types⟩ := by
  unfold register_action at hr
  split at hr
  · exact absurd hr (by simp)
  · split at hr
    · exact absurd hr (by simp)
    · rename_i hne hfind
      refine ⟨hne, Option.not_isSome_iff_eq_none.mp hfind, ?_⟩
      injection hr with h3
      exact h3.symm

theorem register_type_ok {r : ActionRegistry} {t : DynamicType} {r' : ActionRegistry}
    (hr : register_type r t = .ok r') :
    r.types.find? (fun p => p.1 = t.name) = Option.none ∧
      r' = ⟨r.actions, r.types ++ [(t.name, t)]⟩ := by
  unfold register_type at hr
  split at hr
  · exact absurd hr (by simp)
  · rename_i hfind
    refine ⟨Option.not_isSome_iff_eq_none.mp hfind, ?_⟩
    injection hr with h3
    exact h3.symm

theorem registerAll_ok {regs : List (ActionMetadata × Handler)} :
    ∀ {r r' : ActionRegistry}, registerAll r regs = .ok r' →
      r'.actions = r.actions ++ regs.map (fun q => (q.1.name, ⟨q.1, q.2⟩)) ∧
        r'.types = r.types := by
  induction regs with
  | nil =>
    intro r r' h
    simp [registerAll] at h
    subst h
    simp
  | cons q rest ih =>
    intro r r' h
    obtain ⟨m, hd⟩ := q
    unfold registerAll at h
    split at h
    · exact absurd h (by simp)
    · rename_i r1 hreg
      obtain ⟨-, -, rfl⟩ := register_action_ok hreg
      obtain ⟨ha, ht⟩ := ih h
      constructor
      · simpa [List.append_assoc] using ha
      · simpa using ht

theorem registerAll_nodup {regs : List (ActionMetadata × Handler)} :
    ∀ {r r' : ActionRegistry}, registerAll r regs = .ok r' →
      (r.actions.map Prod.fst).Nodup → (r'.actions.map Prod.fst).Nodup := by
  induction regs with
  | nil =>
    intro r r' h hnd
    simp [registerAll] at h
    subst h
    exact hnd
  | cons q rest ih =>
    intro r r' h hnd
    obtain ⟨m, hd⟩ := q
    unfold registerAll at h
    split at h
    · exact absurd h (by simp)
    · rename_i r1 hreg
      obtain ⟨-, hfind, rfl⟩ := register_action_ok hreg
      refine ih h ?_
      have hnotmem : m.name ∉ r.actions.map Prod.fst := by
        intro hmem
        obtain ⟨p, hp, hpeq⟩ := List.mem_map.mp hmem
        have := List.find?_eq_none.mp hfind p hp
        simp [hpeq] at this
      simp [List.nodup_append, hnd, hnotmem]

theorem get_action_after_register {r : ActionRegistry} {m : ActionMetadata} {h : Handler}
    {r' : ActionRegistry} (hr : register_action r m h = .ok r') :
    get_action r' m.name = some ⟨m, h⟩ := by
  obtain ⟨-, hfind, rfl⟩ := register_action_ok hr
  simp [get_action, List.find?_append, hfind, List.find?]

/-- A handler that always raises, for exercising the failure path. -/
def boomHandler : Handler := fun _ => .error "kaboom"

/-- Descriptor of the always-raising action. -/
def boomMeta : ActionMetadata :=
  ⟨"boom", "always fails", [], [], [], [], 0, 0, true⟩

/-- A registry holding exactly the always-raising action. -/
def boomReg : ActionRegistry := ⟨[("boom", ⟨boomMeta, boomHandler⟩)], []⟩

/-- The test type descriptor of tests/test_registry.py. -/
def testType : DynamicType :=
  ⟨"TestType", "A test type", [⟨"field1", "string", "A field"⟩]⟩

/-- A second descriptor reusing the echo name, for the duplicate
registration property. -/
def echoMeta2 : ActionMetadata :=
  ⟨"echo", "another echo", [], [], [], [], 0, 0, true⟩

/-! Claim theorems. -/

/-- C1: for every registered action name and params mapping, if the
handler raises during execute then execute returns an envelope with
status error carrying the exception message, and never propagates the
fault; every call to execute, whatever the handler does, returns a
well-formed envelope. -/
theorem C1_execute_always_wellformed_envelope :
    ∀ (r : ActionRegistry) (name : String) (params : Dict),
      WellFormedResponse (execute r name params) ∧
      (∀ (ra : RegisteredAction) (e : String), get_action r name = some ra →
        ra.handler params = .error e →
        execute r name params = ⟨"error", Option.none, some e⟩) := by
  intro r name params
  constructor
  · unfold execute WellFormedResponse
    cases hga : get_action r name with
    | none => simp [hga]
    | some ra =>
      cases hh : ra.handler params with
      | ok d => simp [hga, hh]
      | error e => simp [hga, hh]
  · intro ra e hga hh
    exact execute_of_handler_error hga hh

theorem C1_witness :
    WellFormedResponse (execute boomReg "boom" []) ∧
      execute boomReg "boom" [] = ⟨"error", Option.none, some "kaboom"⟩ :=
  ⟨(C1_execute_always_wellformed_envelope boomReg "boom" []).1,
   (C1_execute_always_wellformed_envelope boomReg "boom" []).2
     ⟨boomMeta, boomHandler⟩ "kaboom" rfl rfl⟩

/-- C2: for every name not registered in the registry and every params
mapping, execute returns an envelope with status error whose error
message contains the literal substring "not found", and does not raise
(the model of execute is a total function). -/
theorem C2_execute_unregistered_not_found :
    ∀ (r : ActionRegistry) (name : String) (params : Dict),
      get_action r name = Option.none →
      (execute r name params).status = "error" ∧
        ∃ msg, (execute r name params).error = some msg ∧ containsSubstr "not found" msg := by
  intro r name params h
  rw [execute_of_get_action_none params h]
  exact ⟨rfl, notFoundMsg name, rfl, notFoundMsg_contains name⟩

theorem C2_witness :
    (execute ActionRegistry.empty "nonexistent" []).status = "error" ∧
      ∃ msg, (execute ActionRegistry.empty "nonexistent" []).error = some msg ∧
        containsSubstr "not found" msg :=
  C2_execute_unregistered_not_found ActionRegistry.empty "nonexistent" [] rfl

/-- C3: for every registered action whose handler returns a mapping,
execute returns an envelope with status success carrying exactly that
mapping; in particular the registered echo action on message hello
returns a success envelope with result echo maps to hello. -/
theorem C3_execute_success_exact_result :
    (∀ (r : ActionRegistry) (name : String) (params : Dict)
        (ra : RegisteredAction) (d : Dict),
      get_action r name = some ra → ra.handler params = .ok d →
      execute r name params = ⟨"success", some d, Option.none⟩) ∧
    register_action ActionRegistry.empty echoMeta echoHandler = .ok echoReg ∧
    execute echoReg "echo" [("message", Value.str "hello")] =
      ⟨"success", some [("echo", Value.str "hello")], Option.none⟩ := by
  refine ⟨?_, rfl, rfl⟩
  intro r name params ra d h hh
  exact execute_of_handler_ok h hh

theorem C3_witness :
    execute echoReg "echo" [("message", Value.str "hi")] =
      ⟨"success", some [("echo", Value.str "hi")], Option.none⟩ :=
  C3_execute_success_exact_result.1 echoReg "echo" [("message", Value.str "hi")]
    ⟨echoMeta, echoHandler⟩ [("echo", Value.str "hi")] rfl rfl

/-- C4: for every sequence of valid (all-succeeding) registrations on a
fresh registry, list_actions afterwards returns exactly the supplied
descriptors in registration order, with one entry per registered name
(the names are distinct because a duplicate would have failed), and by
its very type exposes descriptors only, not handlers. -/
theorem C4_list_actions_registration_order :
    ∀ (regs : List (ActionMetadata × Handler)) (r' : ActionRegistry),
      registerAll ActionRegistry.empty regs = .ok r' →
      list_actions r' = regs.map Prod.fst ∧
      ((list_actions r').map ActionMetadata.name).Nodup := by
  intro regs r' h
  obtain ⟨ha, -⟩ := registerAll_ok h
  have hnd := registerAll_nodup h (by simp [ActionRegistry.empty])
  have hla : list_actions r' = regs.map Prod.fst := by
    rw [list_actions, ha]
    simp [ActionRegistry.empty, List.map_map]
  refine ⟨hla, ?_⟩
  rw [ha] at hnd
  rw [hla]
  simpa [ActionRegistry.empty, List.map_map] using hnd

/-- The registry obtained by registering echo and then boom. -/
def twoReg : ActionRegistry :=
  ⟨[("echo", ⟨echoMeta, echoHandler⟩), ("boom", ⟨boomMeta, boomHandler⟩)], []⟩

theorem C4_witness :
    list_actions twoReg = [echoMeta, boomMeta] ∧
      ((list_actions twoReg).map ActionMetadata.name).Nodup :=
  C4_list_actions_registration_order
    [(echoMeta, echoHandler), (boomMeta, boomHandler)] twoReg rfl

/-- C5: two calls to the global registry accessor without an intervening
reset return the identical registry instance; after reset_registry the
global instance holds none of the previously registered actions and
types. -/
theorem C5_global_singleton_and_reset :
    ∀ (s : Option ActionRegistry),
      (get_registry s).1 = (get_registry (get_registry s).2).1 ∧
      (get_registry (reset_registry s)).1.actions = [] ∧
      (get_registry (reset_registry s)).1.types = [] ∧
      ∀ name, get_action (get_registry (reset_registry s)).1 name = Option.none := by
  intro s
  refine ⟨?_, rfl, rfl, fun name => rfl⟩
  cases s <;> rfl

/-- C6: registering an action or type name that already exists
deterministically fails (the failing policy the spec states for
DuplicateRegistration) and never silently loses the first registration:
after the failed duplicate attempt the original entry is still the one
registered under the name. Determinism across runs is intrinsic: the
registration operations are pure functions of the registration
sequence. -/
theorem C6_duplicate_registration_fails :
    (∀ (r : ActionRegistry) (m : ActionMetadata) (h : Handler) (r' : ActionRegistry)
        (m2 : ActionMetadata) (h2 : Handler),
      register_action r m h = .ok r' → m2.name = m.name →
      (∃ e, register_action r' m2 h2 = .error e) ∧
        get_action r' m.name = some ⟨m, h⟩) ∧
    (∀ (r : ActionRegistry) (t : DynamicType) (r' : ActionRegistry) (t2 : DynamicType),
      register_type r t = .ok r' → t2.name = t.name →
      ∃ e, register_type r' t2 = .error e) := by
  constructor
  · intro r m h r' m2 h2 hr hname
    have hga := get_action_after_register hr
    obtain ⟨hne, hfind, rfl⟩ := register_action_ok hr
    refine ⟨⟨"duplicate action " ++ m2.name, ?_⟩, hga⟩
    simp [register_action, hname, hne, List.find?_append, hfind, List.find?]
  · intro r t r' t2 hr hname
    obtain ⟨hfind, rfl⟩ := register_type_ok hr
    refine ⟨"duplicate type " ++ t2.name, ?_⟩
    simp [register_type, hname, List.find?_append, hfind, List.find?]

theorem C6_witness :
    ((∃ e, register_action echoReg echoMeta2 echoHandler = .error e) ∧
      get_action echoReg echoMeta.name = some ⟨echoMeta, echoHandler⟩) ∧
    (∃ e, register_type ⟨[], [("TestType", testType)]⟩ testType = .error e) :=
  ⟨C6_duplicate_registration_fails.1 ActionRegistry.empty echoMeta echoHandler echoReg
      echoMeta2 echoHandler rfl rfl,
   C6_duplicate_registration_fails.2 ActionRegistry.empty testType
      ⟨[], [("TestType", testType)]⟩ testType rfl rfl⟩

theorem runSchedule_mem (reqs : List (String × Dict)) (r : ActionRegistry) :
    ∀ (order : List Nat) {i : Nat} {resp : ExecutionResponse},
      (i, resp) ∈ (runSchedule reqs r order).1 →
      ∃ q, reqs[i]? = some q ∧ resp = execute r q.1 q.2 := by
  intro order
  induction order with
  | nil => intro i resp h; simp [runSchedule] at h
  | cons j rest ih =>
    intro i resp h
    unfold runSchedule at h
    split at h
    · exact ih h
    · rename_i q hq
      simp only [executeStep] at h
      rcases List.mem_cons.mp h with h1 | h2
      · injection h1 with hi hr
        subst hi
        subst hr
        exact ⟨q, hq, rfl⟩
      · exact ih h2

theorem runSchedule_final (reqs : List (String × Dict)) (r : ActionRegistry) :
    ∀ (order : List Nat), (runSchedule reqs r order).2 = r := by
  intro order
  induction order with
  | nil => rfl
  | cons j rest ih =>
    unfold runSchedule
    split
    · exact ih
    · simpa [executeStep] using ih

/-- C9: under an arbitrary interleaving of a batch of execute calls over
the shared registry, each recorded response is exactly the response of
its own request against the registry (no cross-contamination of result
or error fields), the registry-owned structures receive no call-scoped
data (the final registry is the initial one), and in particular each of
N echo invocations with distinct messages answers with its own
message. -/
theorem C9_concurrent_execute_no_cross_contamination :
    (∀ (r : ActionRegistry) (reqs : List (String × Dict)) (order : List Nat)
        (i : Nat) (resp : ExecutionResponse),
      (i, resp) ∈ (runSchedule reqs r order).1 →
      ∃ q, reqs[i]? = some q ∧ resp = execute r q.1 q.2) ∧
    (∀ (r : ActionRegistry) (reqs : List (String × Dict)) (order : List Nat),
      (runSchedule reqs r order).2 = r) ∧
    (∀ (msgs : List String) (order : List Nat) (i : Nat) (resp : ExecutionResponse),
      (i, resp) ∈ (runSchedule (echoReqs msgs) echoReg order).1 →
      ∃ m, msgs[i]? = some m ∧
        resp = ⟨"success", some [("echo", Value.str m)], Option.none⟩) := by
  refine ⟨fun r reqs order i resp h => runSchedule_mem reqs r order h,
          fun r reqs order => runSchedule_final reqs r order, ?_⟩
  intro msgs order i resp h
  obtain ⟨q, hq, rfl⟩ := runSchedule_mem (echoReqs msgs) echoReg order h
  rw [echoReqs, List.getElem?_map] at hq
  obtain ⟨m, hm, rfl⟩ := Option.map_eq_some'.mp hq
  exact ⟨m, hm, execute_echo m⟩

theorem C9_witness :
    ∃ m, (["alpha", "beta"] : List String)[1]? = some m ∧
      (⟨"success", some [("echo", Value.str "beta")], Option.none⟩ : ExecutionResponse) =
        ⟨"success", some [("echo", Value.str m)], Option.none⟩ :=
  C9_concurrent_execute_no_cross_contamination.2.2 ["alpha", "beta"] [1, 0] 1
    ⟨"success", some [("echo", Value.str "beta")], Option.none⟩ (List.Mem.head _)

/-- C8: a dispatch step against the registry leaves the catalog
unchanged on both the success and the error path: the action mapping and
the type mapping after the step are the ones from before. -/
theorem C8_execute_preserves_catalog :
    ∀ (r : ActionRegistry) (name : String) (params : Dict),
      (executeStep r (name, params)).2.actions = r.actions ∧
      (executeStep r (name, params)).2.types = r.types :=
  fun _ _ _ => ⟨rfl, rfl⟩

/-- A benign oracle environment for concrete instantiations: the Blogger
service is available and every endpoint answers with a mapping carrying
an id. -/
def okEnv : BloggerEnv :=
  ⟨.ok (),
   fun _ _ _ => .ok [("id", Value.str "1")],
   fun _ _ _ => .ok [("id", Value.str "1")],
   fun _ _ => .ok [("id", Value.str "1")],
   fun _ _ => .ok [("id", Value.str "1")],
   fun _ _ _ => .ok [("items", Value.list [])],
   true,
   fun _ => .ok (Value.str "u"),
   fun _ => true⟩

/-- Params refuting C7 as stated for blog_create_post: blog_id is falsy
in the params mapping, but a truthy nested request mapping is present
and the handler validates the nested mapping instead. -/
def c7CexParams : Dict :=
  [("blog_id", Value.str ""),
   ("request", Value.dict [("blog_id", Value.str "B"), ("title", Value.str "T")])]

/-- C7 counterexample: with blog_id falsy in the params mapping but a
complete nested request mapping present, blog_create_post does not raise
a value error naming blog_id; it succeeds and returns the created post
mapping. -/
theorem C7_counterexample_nested_request :
    (pyGet c7CexParams "blog_id" Value.none).falsy = true ∧
    (blog_create_post okEnv c7CexParams).1 =
      .ok [("id", Value.str "1"), ("url", Value.none),
           ("status", Value.str "draft"), ("title", Value.str "T")] :=
  ⟨rfl, rfl⟩

/-- C7 (amended): each handler checks its required fields in order on
its effective request mapping — for blog_create_post and
blog_update_post the nested request mapping when present (the params
mapping itself otherwise), the params mapping directly for the other
handlers — and a field that is absent or falsy there (all earlier
checked fields being truthy) makes the handler raise a value error of
the form field is required, before any external Blogger/Drive call is
attempted (the recorded call trace is empty); via execute such a raised
error surfaces as an error envelope, never as a propagated fault. -/
theorem C7_required_field_validation_amended :
    (∀ (env : BloggerEnv) (params req : Dict), effectiveRequest params = .ok req →
      (pyGet req "blog_id" Value.none).falsy = true →
      blog_create_post env params = (.error "blog_id is required", [])) ∧
    (∀ (env : BloggerEnv) (params req : Dict), effectiveRequest params = .ok req →
      (pyGet req "blog_id" Value.none).falsy = false →
      (pyGet req "title" Value.none).falsy = true →
      blog_create_post env params = (.error "title is required", [])) ∧
    (∀ (env : BloggerEnv) (params req : Dict), effectiveRequest params = .ok req →
      (pyGet req "blog_id" Value.none).falsy = true →
      blog_update_post env params = (.error "blog_id is required", [])) ∧
    (∀ (env : BloggerEnv) (params req : Dict), effectiveRequest params = .ok req →
      (pyGet req "blog_id" Value.none).falsy = false →
      (pyGet req "post_id" Value.none).falsy = true →
      blog_update_post env params = (.error "post_id is required", [])) ∧
    (∀ (env : BloggerEnv) (params : Dict),
      (pyGet params "blog_id" Value.none).falsy = true →
      blog_publish_post env params = (.error "blog_id is required", [])) ∧
    (∀ (env : BloggerEnv) (params : Dict),
      (pyGet params "blog_id" Value.none).falsy = false →
      (pyGet params "post_id" Value.none).falsy = true →
      blog_publish_post env params = (.error "post_id is required", [])) ∧
    (∀ (env : BloggerEnv) (params : Dict),
      (pyGet params "blog_id" Value.none).falsy = true →
      blog_get_post env params = (.error "blog_id is required", [])) ∧
    (∀ (env : BloggerEnv) (params : Dict),
      (pyGet params "blog_id" Value.none).falsy = false →
      (pyGet params "post_id" Value.none).falsy = true →
      blog_get_post env params = (.error "post_id is required", [])) ∧
    (∀ (env : BloggerEnv) (params : Dict),
      (pyGet params "file_path" Value.none).falsy = true →
      blog_upload_image env params = (.error "file_path is required", [])) ∧
    (∀ (env : BloggerEnv) (params : Dict),
      (pyGet params "blog_id" Value.none).falsy = true →
      blog_list_posts env params = (.error "blog_id is required", [])) ∧
    (∀ (r : ActionRegistry) (name : String) (params : Dict)
        (ra : RegisteredAction) (e : String),
      get_action r name = some ra → ra.handler params = .error e →
      execute r name params = ⟨"error", Option.none, some e⟩) := by
  refine ⟨?_, ?_, ?_, ?_, ?_, ?_, ?_, ?_, ?_, ?_,
    fun r name params ra e hga hh => execute_of_handler_error hga hh⟩
  · intro env params req hreq hb
    simp [blog_create_post, hreq, hb]
  · intro env params req hreq hb ht
    simp [blog_create_post, hreq, hb, ht]
  · intro env params req hreq hb
    simp [blog_update_post, hreq, hb]
  · intro env params req hreq hb hp
    simp [blog_update_post, hreq, hb, hp]
  · intro env params hb
    simp [blog_publish_post, hb]
  · intro env params hb hp
    simp [blog_publish_post, hb, hp]
  · intro env params hb
    simp [blog_get_post, hb]
  · intro env params hb hp
    simp [blog_get_post, hb, hp]
  · intro env params hf
    simp [blog_upload_image, hf]
  · intro env params hb
    simp [blog_list_posts, hb]

theorem C7_witness :
    blog_create_post okEnv [] = (.error "blog_id is required", []) ∧
    blog_update_post okEnv [("blog_id", Value.str "B")] =
      (.error "post_id is required", []) ∧
    blog_publish_post okEnv [("blog_id", Value.str "B")] =
      (.error "post_id is required", []) ∧
    blog_get_post okEnv [] = (.error "blog_id is required", []) ∧
    blog_upload_image okEnv [] = (.error "file_path is required", []) ∧
    blog_list_posts okEnv [] = (.error "blog_id is required", []) ∧
    execute boomReg "boom" [] = ⟨"error", Option.none, some "kaboom"⟩ :=
  ⟨C7_required_field_validation_amended.1 okEnv [] [] rfl rfl,
   C7_required_field_validation_amended.2.2.2.1 okEnv [("blog_id", Value.str "B")]
     [("blog_id", Value.str "B")] rfl rfl rfl,
   C7_required_field_validation_amended.2.2.2.2.2.1 okEnv
     [("blog_id", Value.str "B")] rfl rfl,
   C7_required_field_validation_amended.2.2.2.2.2.2.1 okEnv [] rfl,
   C7_required_field_validation_amended.2.2.2.2.2.2.2.2.1 okEnv [] rfl,
   C7_required_field_validation_amended.2.2.2.2.2.2.2.2.2.1 okEnv [] rfl,
   C7_required_field_validation_amended.2.2.2.2.2.2.2.2.2.2 boomReg "boom" []
     ⟨boomMeta, boomHandler⟩ "kaboom" rfl rfl⟩

/-- C10: a call to blog_create_post whose effective request carries
truthy blog_id and title but omits the draft field inserts the post with
isDraft True and, on success, returns a mapping whose status field is
draft; in general, on every successful return the status field is draft
exactly when the draft flag (default True) is truthy and live
otherwise — creation without an explicit draft flag never publishes
immediately. -/
theorem C10_create_post_draft_default :
    (∀ (env : BloggerEnv) (params req d : Dict) (calls : List ExtCall),
      effectiveRequest params = .ok req →
      dictGet req "draft" = Option.none →
      blog_create_post env params = (.ok d, calls) →
      dictGet d "status" = some (Value.str "draft") ∧
      ∃ body, calls = [ExtCall.getService,
        ExtCall.postsInsert (pyGet req "blog_id" Value.none) body (Value.bool true)]) ∧
    (∀ (env : BloggerEnv) (params req d : Dict) (calls : List ExtCall),
      effectiveRequest params = .ok req →
      blog_create_post env params = (.ok d, calls) →
      dictGet d "status" =
        some (Value.str (if (pyGet req "draft" (Value.bool true)).falsy
          then "live" else "draft"))) := by
  constructor
  · intro env params req d calls hreq hdraft
    have hd : pyGet req "draft" (Value.bool true) = Value.bool true := by
      simp [pyGet, hdraft]
    simp only [blog_create_post, hreq, hd]
    split
    · intro h; simp at h
    · split
      · intro h; simp at h
      · split
        · intro h; simp at h
        · split
          · intro h; simp at h
          · split
            · intro h; simp at h
            · split
              · intro h; simp at h
              · intro h
                injection h with h1 h2
                injection h1 with h1
                subst h1
                subst h2
                exact ⟨rfl, _, rfl⟩
  · intro env params req d calls hreq
    simp only [blog_create_post, hreq]
    split
    · intro h; simp at h
    · split
      · intro h; simp at h
      · split
        · intro h; simp at h
        · split
          · intro h; simp at h
          · split
            · intro h; simp at h
            · split
              · intro h; simp at h
              · intro h
                injection h with h1 h2
                injection h1 with h1
                subst h1
                exact rfl

theorem C10_witness :
    dictGet [("id", Value.str "1"), ("url", Value.none),
             ("status", Value.str "draft"), ("title", Value.str "T")] "status" =
        some (Value.str "draft") ∧
      ∃ body, ([ExtCall.getService,
          ExtCall.postsInsert (Value.str "B") [("title", Value.str "T"),
            ("content", Value.str "")] (Value.bool true)] : List ExtCall) =
        [ExtCall.getService,
          ExtCall.postsInsert
            (pyGet [("blog_id", Value.str "B"), ("title", Value.str "T")] "blog_id" Value.none)
            body (Value.bool true)] :=
  C10_create_post_draft_default.1 okEnv
    [("blog_id", Value.str "B"), ("title", Value.str "T")]
    [("blog_id", Value.str "B"), ("title", Value.str "T")]
    [("id", Value.str "1"), ("url", Value.none),
     ("status", Value.str "draft"), ("title", Value.str "T")]
    [ExtCall.getService,
      ExtCall.postsInsert (Value.str "B") [("title", Value.str "T"),
        ("content", Value.str "")] (Value.bool true)]
    rfl rfl rfl
